import Mathlib

/-!
# Verification of the torus-cli list/aggregate commands

A shallow embedding of the concurrent dependent-fetch aggregation code in
`cmd/teams.go` (the `teams` command file and the `orgs` command file of the
same package): the data model (teams, memberships, profiles, sessions), the
machine-team predicate, the per-command fetch task graphs and their error
slots, the relational index builder of `orgsMembersListCmd`, and the sort
used for per-user team lists.

Remote calls are modelled as oracles (`Except Err result` values or
functions) supplied per invocation; each goroutine's effect on its exclusive
result slots is composed in task declaration order, which is an admissible
schedule of the source's concurrency (each slot is written by one task, and
the one shared slot, `sErr` in `teamsListCmd`, is written by the session task
strictly before the dependent memberships task reads or writes it, via the
`getMemberships` wait group).

Go runtime panics (explicit `panic(...)` calls, nil pointer dereference,
string slicing out of bounds) are modelled as a distinguished `GoPanic`
outcome, disjoint from ordinary returned error values.
-/

namespace Torus

/-- Team type tag: `primitive.SystemTeamType`, `primitive.MachineTeamType`,
`primitive.UserTeamType`. -/
inductive TeamType where
  | system
  | machine
  | user
deriving DecidableEq, Repr, Inhabited

/-- A team (`envelope.Team` flattened with its `primitive.Team` body):
identity, name, and type. -/
structure Team where
  id : Nat
  name : String
  teamType : TeamType
deriving DecidableEq, Repr, Inhabited

/-- Modelled from the spec: the reserved machine-team name
(`primitive.MachineTeamName`; the `primitive` package is not under `src/`).
The spec calls it "the reserved machine-team name"; its concrete value is
irrelevant to every property proved here. -/
def machineTeamName : String := "machine"

/-- `isMachineTeam` from `cmd/teams.go`: whether the team represents a
machine role. -/
def isMachineTeam (team : Team) : Bool :=
  team.teamType == TeamType.machine ||
    (team.teamType == TeamType.system && team.name == machineTeamName)

/-- A membership (`envelope.Membership`): identity, owning user
(`Body.OwnerID`), and team (`Body.TeamID`). -/
structure Membership where
  id : Nat
  ownerID : Nat
  teamID : Nat
deriving DecidableEq, Repr, Inhabited

/-- A user profile (`apitypes.Profile`): identity, display name, username. -/
structure Profile where
  id : Nat
  name : String
  username : String
deriving DecidableEq, Repr, Inhabited

/-- The authenticated session (`api.Session`): identity and username of the
current actor. -/
structure Session where
  id : Nat
  username : String
deriving DecidableEq, Repr, Inhabited

/-- An organization (`envelope.Org`): identity and name. -/
structure Org where
  id : Nat
  name : String
deriving DecidableEq, Repr, Inhabited

/-- An individual (non-combined) error value. `exit msg` models
`errs.NewExitError(msg)`; `raw tag` models an arbitrary error returned by a
remote call. In the embedded commands these are the values held by the
per-task error slots. -/
inductive TaskErr where
  | exit (msg : String)
  | raw (tag : String)
deriving DecidableEq, Repr, Inhabited

/-- An error value returned by a command: either a single error or the
combined value built by `errs.MultiError`. (In these commands `MultiError`
is only ever applied to the per-task error slots, which never hold combined
values themselves, so the combination is typed over `TaskErr`.) -/
inductive Err where
  | single (e : TaskErr)
  | multi (errs : List TaskErr)
deriving DecidableEq, Repr, Inhabited

/-- Modelled from the spec (the `errs` package is not under `src/`):
`errs.MultiError` takes the error slots in the order they are passed,
omits the nil slots, and combines the rest into a single failure value
preserving that order. -/
def multiError (slots : List (Option TaskErr)) : Err :=
  Err.multi (slots.filterMap id)

/-- Whether a combined failure value contains a given individual error:
membership in the combination for a `multi`, equality otherwise. -/
def errContains (combined : Err) (e : TaskErr) : Bool :=
  match combined with
  | Err.multi l => l.contains e
  | Err.single x => x == e

/-- A Go runtime panic: process termination, distinct from any returned
error value. -/
structure GoPanic where
  msg : String
deriving DecidableEq, Repr, Inhabited

/-- The panic raised by `orgsMembersListCmd` when a membership references a
team absent from the fetched team list. -/
def consistencyPanic : GoPanic :=
  ⟨"Attempted to access membership with no associated team."⟩

/-- The Go runtime panic raised by dereferencing a nil pointer (here: calling
`session.Username()` on a nil session). -/
def nilDerefPanic : GoPanic :=
  ⟨"runtime error: invalid memory address or nil pointer dereference"⟩

/-- The Go runtime panic raised by slicing a string out of bounds (here:
`teamString[:len(teamString)-2]` on a too-short string). -/
def sliceBoundsPanic : GoPanic :=
  ⟨"runtime error: slice bounds out of range"⟩

/-!
## Go `sort.Sort`

`orgsMembersListCmd` sorts each user's team list with
`sort.Sort(ByTeamPrecedence(userTeams))`. `sort.Sort` is the Go standard
library's in-place comparison sort of the era this code was written
(an introsort: quicksort with median-of-three / median-of-nine pivoting,
falling back to heap sort beyond a depth limit, and — for ranges of at most
12 elements — a single gap-6 Shell-sort pass followed by insertion sort).
It is embedded here over `Array` with an explicit `less` function standing
for `data.Less`; `data.Swap` is an array swap. Loops whose termination
argument in Go is non-structural are given a fuel parameter that strictly
exceeds the number of iterations the loop can perform (each iteration
either advances an index bounded by the range or shrinks the range), so
the fuel is never exhausted on any input.
-/

/-- Array read, with the `Inhabited` default out of bounds (never reached:
all indices below are within `[a, b)` bounds of the sorted range). -/
def arrGet [Inhabited α] (a : Array α) (i : Nat) : α := a.getD i default

/-- `data.Swap(i, j)`: exchange two array slots (no-op out of bounds,
never reached). -/
def arrSwap [Inhabited α] (a : Array α) (i j : Nat) : Array α :=
  let vi := arrGet a i
  let vj := arrGet a j
  (a.setD i vj).setD j vi

/-- Inner loop of `insertionSort`: move element `j` left while it is less
than its left neighbour and `j > a`. Structural recursion on `j` (the loop
decrements `j`). -/
def insSortInner [Inhabited α] (less : α → α → Bool) (arr : Array α)
    (a : Nat) : Nat → Array α
  | 0 => arr
  | j + 1 =>
    if decide (a < j + 1) && less (arrGet arr (j + 1)) (arrGet arr j) then
      insSortInner less (arrSwap arr (j + 1) j) a j
    else arr

/-- Outer loop of `insertionSort`: for `i` from `a+1` up to `b`. The fuel
counts the remaining iterations (`b - i` when first called, so it is never
exhausted). -/
def insSortOuter [Inhabited α] (less : α → α → Bool) (arr : Array α)
    (a b i : Nat) : Nat → Array α
  | 0 => arr
  | fuel + 1 =>
    if i < b then
      insSortOuter less (insSortInner less arr a i) a b (i + 1) fuel
    else arr

/-- `insertionSort(data, a, b)` from Go `sort`. -/
def goInsertionSort [Inhabited α] (less : α → α → Bool) (arr : Array α)
    (a b : Nat) : Array α :=
  insSortOuter less arr a b (a + 1) b

/-- The gap-6 Shell-sort pass `quickSort` performs on ranges of at most 12
elements: `for i := a + 6; i < b; i++ { if Less(i, i-6) { Swap(i, i-6) } }`.
The fuel counts the remaining iterations (`b` suffices). -/
def shellPass [Inhabited α] (less : α → α → Bool) (arr : Array α)
    (b i : Nat) : Nat → Array α
  | 0 => arr
  | fuel + 1 =>
    if i < b then
      let arr' := if less (arrGet arr i) (arrGet arr (i - 6)) then
          arrSwap arr i (i - 6)
        else arr
      shellPass less arr' b (i + 1) fuel
    else arr

/-- `siftDown(data, root, hi, first)` from Go `sort` heap sort. The fuel
bounds the walk down the heap (depth at most `hi`). -/
def goSiftDown [Inhabited α] (less : α → α → Bool) (arr : Array α)
    (root hi first : Nat) : Nat → Array α
  | 0 => arr
  | fuel + 1 =>
    let child := 2 * root + 1
    if child ≥ hi then arr
    else
      let child :=
        if child + 1 < hi &&
            less (arrGet arr (first + child)) (arrGet arr (first + child + 1))
        then child + 1 else child
      if !less (arrGet arr (first + root)) (arrGet arr (first + child)) then arr
      else goSiftDown less (arrSwap arr (first + root) (first + child)) child hi
        first fuel

/-- First loop of `heapSort`: build the heap, `i` from `(hi-1)/2` down to 0. -/
def heapBuildLoop [Inhabited α] (less : α → α → Bool) (arr : Array α)
    (hi first : Nat) : Nat → Array α
  | 0 => goSiftDown less arr 0 hi first hi
  | i + 1 => heapBuildLoop less (goSiftDown less arr (i + 1) hi first hi) hi first i

/-- Second loop of `heapSort`: pop the maximum, `i` from `hi-1` down to 0. -/
def heapPopLoop [Inhabited α] (less : α → α → Bool) (arr : Array α)
    (first : Nat) : Nat → Array α
  | 0 => goSiftDown less (arrSwap arr first first) 0 0 first 1
  | i + 1 =>
    let arr := arrSwap arr first (first + (i + 1))
    let arr := goSiftDown less arr 0 (i + 1) first (i + 2)
    heapPopLoop less arr first i

/-- `heapSort(data, a, b)` from Go `sort` (only reached for ranges longer
than 12 once the depth limit is hit). -/
def goHeapSort [Inhabited α] (less : α → α → Bool) (arr : Array α)
    (a b : Nat) : Array α :=
  let first := a
  let hi := b - a
  let arr := heapBuildLoop less arr hi first ((hi - 1) / 2)
  heapPopLoop less arr first (hi - 1)

/-- `medianOfThree(data, m1, m0, m2)` from Go `sort`: sort the three slots
so the median lands in `m1`. -/
def medianOfThree [Inhabited α] (less : α → α → Bool) (arr : Array α)
    (m1 m0 m2 : Nat) : Array α :=
  let arr := if less (arrGet arr m1) (arrGet arr m0) then arrSwap arr m1 m0 else arr
  let arr :=
    if less (arrGet arr m2) (arrGet arr m1) then
      let arr := arrSwap arr m2 m1
      if less (arrGet arr m1) (arrGet arr m0) then arrSwap arr m1 m0 else arr
    else arr
  arr

/-- `doPivot` advance loop: `for ; a < c && Less(a, pivot); a++`. The fuel
counts the remaining iterations (`c - a` when first called). -/
def pivotAdvA [Inhabited α] (less : α → α → Bool) (arr : Array α)
    (pivot c a : Nat) : Nat → Nat
  | 0 => a
  | fuel + 1 =>
    if decide (a < c) && less (arrGet arr a) (arrGet arr pivot) then
      pivotAdvA less arr pivot c (a + 1) fuel
    else a

/-- `doPivot` advance loop: `for ; b < c && !Less(pivot, b); b++`. The fuel
counts the remaining iterations (`c - b` when first called). -/
def pivotAdvB [Inhabited α] (less : α → α → Bool) (arr : Array α)
    (pivot c b : Nat) : Nat → Nat
  | 0 => b
  | fuel + 1 =>
    if decide (b < c) && !less (arrGet arr pivot) (arrGet arr b) then
      pivotAdvB less arr pivot c (b + 1) fuel
    else b

/-- `doPivot` retreat loop: `for ; b < c && Less(pivot, c-1); c--`. The
fuel counts the remaining iterations (`c - b` when first called). -/
def pivotRetreatC [Inhabited α] (less : α → α → Bool) (arr : Array α)
    (pivot b c : Nat) : Nat → Nat
  | 0 => c
  | fuel + 1 =>
    if decide (b < c) && less (arrGet arr pivot) (arrGet arr (c - 1)) then
      pivotRetreatC less arr pivot b (c - 1) fuel
    else c

/-- Main partition loop of `doPivot`: advance `b`, retreat `c`, swap
`b`/`c-1` while they have not crossed. The fuel bounds the iterations
(each one strictly shrinks `c - b`). -/
def pivotMainLoop [Inhabited α] (less : α → α → Bool) (arr : Array α)
    (pivot b c : Nat) : Nat → Array α × Nat × Nat
  | 0 => (arr, b, c)
  | fuel + 1 =>
    let b := pivotAdvB less arr pivot c b (c + 1)
    let c := pivotRetreatC less arr pivot b c (c + 1)
    if b ≥ c then (arr, b, c)
    else pivotMainLoop less (arrSwap arr b (c - 1)) pivot (b + 1) (c - 1) fuel

/-- Duplicate-protection retreat loop of `doPivot`:
`for ; a < b && !Less(b-1, pivot); b--`. The fuel counts the remaining
iterations (`b - a` when first called). -/
def protectRetreatB [Inhabited α] (less : α → α → Bool) (arr : Array α)
    (pivot a b : Nat) : Nat → Nat
  | 0 => b
  | fuel + 1 =>
    if decide (a < b) && !less (arrGet arr (b - 1)) (arrGet arr pivot) then
      protectRetreatB less arr pivot a (b - 1) fuel
    else b

/-- Duplicate-protection advance loop of `doPivot`:
`for ; a < b && Less(a, pivot); a++`. The fuel counts the remaining
iterations (`b - a` when first called). -/
def protectAdvA [Inhabited α] (less : α → α → Bool) (arr : Array α)
    (pivot a b : Nat) : Nat → Nat
  | 0 => a
  | fuel + 1 =>
    if decide (a < b) && less (arrGet arr a) (arrGet arr pivot) then
      protectAdvA less arr pivot (a + 1) b fuel
    else a

/-- Duplicate-protection main loop of `doPivot`: swap `a`/`b-1` while the
indices have not crossed. The fuel bounds the iterations (each one
strictly shrinks `b - a`). -/
def protectMainLoop [Inhabited α] (less : α → α → Bool) (arr : Array α)
    (pivot a b : Nat) : Nat → Array α × Nat × Nat
  | 0 => (arr, a, b)
  | fuel + 1 =>
    let b := protectRetreatB less arr pivot a b (b + 1)
    let a := protectAdvA less arr pivot a b (b + 1)
    if a ≥ b then (arr, a, b)
    else protectMainLoop less (arrSwap arr a (b - 1)) pivot (a + 1) (b - 1) fuel

/-- `doPivot(data, lo, hi)` from Go `sort`: median-of-three (or
median-of-nine for long ranges) pivot selection, three-way partition with
duplicate protection. Returns the partitioned array and `(midlo, midhi)`. -/
def goDoPivot [Inhabited α] (less : α → α → Bool) (arr : Array α)
    (lo hi : Nat) : Array α × Nat × Nat :=
  let m := lo + (hi - lo) / 2
  let arr :=
    if hi - lo > 40 then
      let s := (hi - lo) / 8
      let arr := medianOfThree less arr lo (lo + s) (lo + 2 * s)
      let arr := medianOfThree less arr m (m - s) (m + s)
      medianOfThree less arr (hi - 1) (hi - 1 - s) (hi - 1 - 2 * s)
    else arr
  let arr := medianOfThree less arr lo m (hi - 1)
  let pivot := lo
  let a := pivotAdvA less arr pivot (hi - 1) (lo + 1) hi
  let (arr, b, c) := pivotMainLoop less arr pivot a (hi - 1) hi
  let protect : Bool := hi - c < 5
  let (arr, b, c, protect) :=
    if !protect && hi - c < (hi - lo) / 4 then
      let (arr, c, dups) :=
        if !less (arrGet arr pivot) (arrGet arr (hi - 1)) then
          (arrSwap arr c (hi - 1), c + 1, 1)
        else (arr, c, 0)
      let (b, dups) :=
        if !less (arrGet arr (b - 1)) (arrGet arr pivot) then (b - 1, dups + 1)
        else (b, dups)
      let (arr, b, dups) :=
        if !less (arrGet arr m) (arrGet arr pivot) then
          (arrSwap arr m (b - 1), b - 1, dups + 1)
        else (arr, b, dups)
      (arr, b, c, decide (dups > 1))
    else (arr, b, c, protect)
  let (arr, _, b) :=
    if protect then protectMainLoop less arr pivot (lo + 1) b hi
    else (arr, lo + 1, b)
  let arr := arrSwap arr pivot (b - 1)
  (arr, b - 1, c)

/-- `quickSort(data, a, b, maxDepth)` from Go `sort`. Go's loop re-enters on
the larger half after recursing on the smaller half; that tail loop is
rendered as a second recursive call with the same decremented depth. The
fuel bounds the recursion depth (each recursive call strictly shrinks the
range, so `b - a` fuel always suffices). -/
def goQuickSort [Inhabited α] (less : α → α → Bool) (arr : Array α)
    (a b maxd : Nat) : Nat → Array α
  | 0 => arr
  | fuel + 1 =>
    if b - a > 12 then
      if maxd = 0 then goHeapSort less arr a b
      else
        let (arr, mlo, mhi) := goDoPivot less arr a b
        if mlo - a < b - mhi then
          let arr := goQuickSort less arr a mlo (maxd - 1) fuel
          goQuickSort less arr mhi b (maxd - 1) fuel
        else
          let arr := goQuickSort less arr mhi b (maxd - 1) fuel
          goQuickSort less arr a mlo (maxd - 1) fuel
    else if b - a > 1 then
      let arr := shellPass less arr b (a + 6) b
      goInsertionSort less arr a b
    else arr

/-- The loop of Go `sort.maxDepth`:
`for i := n; i > 0; i >>= 1 { depth++ }` — the bit length of `n`. The fuel
counts the remaining iterations (`n` suffices, since halving a positive
number at least `bitLen n` times reaches zero and `bitLen n ≤ n`). -/
def bitLen (n : Nat) : Nat → Nat
  | 0 => 0
  | fuel + 1 => if n = 0 then 0 else bitLen (n / 2) fuel + 1

/-- `maxDepth(n)` from Go `sort`: twice the bit length of `n`. -/
def goMaxDepth (n : Nat) : Nat :=
  bitLen n n * 2

/-- `sort.Sort(data)`: quicksort the whole range with the depth limit
`maxDepth(n)`, as a function on lists. -/
def goSortSort [Inhabited α] (less : α → α → Bool) (l : List α) : List α :=
  (goQuickSort less l.toArray 0 l.length (goMaxDepth l.length) (l.length + 1)).toList

/-- Modelled from the spec: `ByTeamPrecedence.Less` (declared elsewhere in
the repository's `cmd` package, not under `src/`) orders teams by a
precedence ranking; the spec fixes only that it is "a total order over
team-type/name combinations" and treats the exact ranking as a pluggable
policy parameter, so the rank function is a parameter here. Ties (equal
rank) are possible. -/
def byTeamPrecedenceLess (rank : Team → Nat) (t u : Team) : Bool :=
  rank t < rank u

/-- `sort.Sort(ByTeamPrecedence(userTeams))` from `orgsMembersListCmd`. -/
def sortTeamsByPrecedence (rank : Team → Nat) (teams : List Team) : List Team :=
  goSortSort (byTeamPrecedenceLess rank) teams

/-!
## `teamsListCmd` (teams list)

Three tasks: the session task (`client.Session.Who`, signals the
`getMemberships` wait group), the teams task (`client.Teams.GetByOrg`,
signals `display`), and the dependent memberships task (waits on
`getMemberships`, calls `client.Memberships.List` only when `sErr == nil`,
populates `memberOf`, signals `display`). `display.Add(2)` and
`display.Wait()` form the join barrier.
-/

/-- The remote-call oracles of one `teamsListCmd` invocation. The
memberships call is keyed by the session id it is given
(`session.ID()`). -/
structure TeamsListFetch where
  whoRes : Except TaskErr Session
  teamsRes : Except TaskErr (List Team)
  membershipsRes : Nat → Except TaskErr (List Membership)

/-- What the dependent memberships task of `teamsListCmd` did: the
memberships it read, the final value of the shared `sErr` slot, whether the
remote call was performed, and how many times it signalled `display.Done()`. -/
structure DepTaskResult where
  membershipsOut : List Membership
  sErrOut : Option TaskErr
  remoteCallRan : Bool
  doneSignals : Nat
deriving DecidableEq, Repr

/-- The dependent memberships task of `teamsListCmd`, run after the session
task has signalled `getMemberships`: reads the `sErr` and `session` slots the
session task wrote; performs `client.Memberships.List(c, org.ID, nil,
session.ID())` only when `sErr == nil`; always signals `display.Done()`
exactly once. Calling `session.ID()` on a nil session would be a nil
dereference (unreachable from `runTeamsListTasks`: `sErr == nil` implies the
session slot was written). -/
def teamsListMembershipTask (sErr : Option TaskErr) (session : Option Session)
    (call : Nat → Except TaskErr (List Membership)) :
    Except GoPanic DepTaskResult :=
  match sErr with
  | some e =>
    Except.ok { membershipsOut := [], sErrOut := some e, remoteCallRan := false,
                doneSignals := 1 }
  | none =>
    match session with
    | none => Except.error nilDerefPanic
    | some s =>
      match call s.id with
      | Except.ok ms =>
        Except.ok { membershipsOut := ms, sErrOut := none, remoteCallRan := true,
                    doneSignals := 1 }
      | Except.error e =>
        Except.ok { membershipsOut := [], sErrOut := some e, remoteCallRan := true,
                    doneSignals := 1 }

/-- Insert into a Go `map[K]bool` used as a set, modelled as a list of keys
in first-insertion order. -/
def insertAbsent (l : List Nat) (x : Nat) : List Nat :=
  if l.contains x then l else l ++ [x]

/-- The state of one `teamsListCmd` invocation at the `display.Wait()` join
point: every task's exclusive result slots, plus how often `display.Done()`
was signalled (the barrier was armed with `display.Add(2)`). -/
structure TeamsListJoin where
  session : Option Session
  sErr : Option TaskErr
  teams : List Team
  tErr : Option TaskErr
  memberOf : List Nat
  membershipCallRan : Bool
  displaySignals : Nat
deriving DecidableEq, Repr

/-- Run the three tasks of `teamsListCmd` against the oracles and collect the
slots at the join. Task effects are composed in declaration order (session,
teams, dependent memberships), an admissible schedule: each slot has one
writing task, except `sErr`, whose two writers are ordered by the
`getMemberships` wait group. -/
def runTeamsListTasks (f : TeamsListFetch) : Except GoPanic TeamsListJoin :=
  -- session task: `session, sErr = client.Session.Who(c)`
  let (session, sErr0) :=
    match f.whoRes with
    | Except.ok s => (some s, (none : Option TaskErr))
    | Except.error e => ((none : Option Session), some e)
  -- teams task: `teams, tErr = client.Teams.GetByOrg(c, org.ID)`
  let (teams, tErr) :=
    match f.teamsRes with
    | Except.ok ts => (ts, (none : Option TaskErr))
    | Except.error e => (([] : List Team), some e)
  -- dependent memberships task, then `for _, m := range memberships
  -- { memberOf[*m.Body.TeamID] = true }`
  match teamsListMembershipTask sErr0 session f.membershipsRes with
  | Except.error p => Except.error p
  | Except.ok r =>
    Except.ok
      { session := session, sErr := r.sErrOut, teams := teams, tErr := tErr,
        memberOf := r.membershipsOut.foldl (fun acc m => insertAbsent acc m.teamID) [],
        membershipCallRan := r.remoteCallRan,
        displaySignals := 1 + r.doneSignals }

/-- The machine-team exclusion applied by the render loops
(`if isMachineTeam(t.Body) { continue }`). -/
def machineTeamFilter (teams : List Team) : List Team :=
  teams.filter (fun t => !isMachineTeam t)

/-- One rendered row of the teams list: the `*` marker (`isMember`), the
team name, and the displayed type. -/
structure TeamRow where
  isMember : Bool
  name : String
  displayType : String
deriving DecidableEq, Repr

/-- The render loop of `teamsListCmd`: skip machine teams, mark a team with
`*` when its id is in `memberOf`, and display its type. -/
def teamsListRows (teams : List Team) (memberOf : List Nat) : List TeamRow :=
  (machineTeamFilter teams).map (fun t =>
    { isMember := memberOf.contains t.id,
      name := t.name,
      displayType :=
        match t.teamType with
        | TeamType.system => "system"
        | TeamType.machine => "machine"
        | TeamType.user => "user" })

/-- The observable outcome of one `teamsListCmd` invocation after the join:
a returned failure, a Go panic, or the rendered rows with the `numTeams`
summary count. -/
inductive TeamsListOutcome where
  | failure (e : Err)
  | panicked (p : GoPanic)
  | rendered (rows : List TeamRow) (numTeams : Nat)
deriving DecidableEq, Repr

/-- `teamsListCmd` from the join onward: on any slot error return
`errs.MultiError(sErr, tErr, errs.NewExitError("Error fetching teams
list"))`; otherwise render the filtered rows. -/
def teamsListOutcome (f : TeamsListFetch) : TeamsListOutcome :=
  match runTeamsListTasks f with
  | Except.error p => TeamsListOutcome.panicked p
  | Except.ok j =>
    if j.sErr.isSome || j.tErr.isSome then
      TeamsListOutcome.failure
        (multiError [j.sErr, j.tErr, some (TaskErr.exit "Error fetching teams list")])
    else
      let rows := teamsListRows j.teams j.memberOf
      TeamsListOutcome.rendered rows rows.length

/-!
## `orgsList` (orgs list fetch helper)

Two independent tasks (`client.Orgs.List` and `client.Session.Who`) joined
by a wait group; on any failure the helper returns the single fresh value
`errs.NewExitError("Error fetching orgs list")` — the individual task
errors are not part of the returned value.
-/

/-- The remote-call oracles of one `orgsList` invocation. -/
structure OrgsListFetch where
  orgsRes : Except TaskErr (List Org)
  whoRes : Except TaskErr Session

/-- The two error slots of `orgsList` at its join. -/
def orgsListSlots (f : OrgsListFetch) : Option TaskErr × Option TaskErr :=
  ( match f.orgsRes with
    | Except.ok _ => none
    | Except.error e => some e,
    match f.whoRes with
    | Except.ok _ => none
    | Except.error e => some e )

/-- `orgsList` from `cmd`: run both tasks, join, and on any slot error
return `errs.NewExitError("Error fetching orgs list")`. -/
def orgsList (f : OrgsListFetch) : Except Err (List Org × Session) :=
  if (orgsListSlots f).1.isSome || (orgsListSlots f).2.isSome then
    Except.error (Err.single (TaskErr.exit "Error fetching orgs list"))
  else
    match f.orgsRes, f.whoRes with
    | Except.ok orgs, Except.ok session => Except.ok (orgs, session)
    | _, _ => Except.error (Err.single (TaskErr.exit "Error fetching orgs list"))

/-!
## `teamMembersListCmd` (team members list)

Two independent tasks (memberships of the org/team, and the session) joined
by the `getMembers` wait group; on any failure `errs.MultiError(mErr, sErr)`
is returned. With zero memberships the command prints
`"<team> has no members"` and returns nil without fetching any profiles.
-/

/-- One rendered row of a member list: the `*` marker (`me`), display name,
and username. -/
structure MemberRow where
  me : Bool
  name : String
  username : String
deriving DecidableEq, Repr

/-- The member-list render loop: `me` is set by comparing
`session.Username()` with the profile's username. Calling
`session.Username()` on a nil session is a nil dereference; it happens on
the first loop iteration, so an empty profile list renders without touching
the session. -/
def memberRowsGo (session : Option Session) :
    List Profile → Except GoPanic (List MemberRow)
  | [] => Except.ok []
  | p :: ps =>
    match session with
    | none => Except.error nilDerefPanic
    | some s => do
      let rest ← memberRowsGo (some s) ps
      return { me := s.username == p.username, name := p.name,
               username := p.username } :: rest

/-- The remote-call oracles of one `teamMembersListCmd` invocation (after
org and team selection). `client.Profiles.ListByID` may return a nil list
without an error (`Except.ok none`), which the command reports as
`"User not found."`. -/
structure TeamMembersFetch where
  teamName : String
  membershipsRes : Except TaskErr (List Membership)
  whoRes : Except TaskErr Session
  profilesRes : List Nat → Except TaskErr (Option (List Profile))

/-- The observable outcome of one `teamMembersListCmd` invocation: a
returned failure, the `"has no members"` notice (a nil — success — return
with no profile fetch), a Go panic, or the rendered rows together with the
ids the profile batch fetch requested and the summary count. -/
inductive TeamMembersOutcome where
  | failure (e : Err)
  | noMembersNotice (msg : String)
  | panicked (p : GoPanic)
  | rendered (requestedIDs : List Nat) (rows : List MemberRow) (summaryCount : Nat)
deriving DecidableEq, Repr

/-- `teamMembersListCmd` from the fetch phase onward. -/
def teamMembersOutcome (f : TeamMembersFetch) : TeamMembersOutcome :=
  -- `memberships, mErr = client.Memberships.List(c, org.ID, team.ID, nil)`
  let (memberships, mErr) :=
    match f.membershipsRes with
    | Except.ok ms => (ms, (none : Option TaskErr))
    | Except.error e => (([] : List Membership), some e)
  -- `session, sErr = client.Session.Who(c)`
  let (session, sErr) :=
    match f.whoRes with
    | Except.ok s => (some s, (none : Option TaskErr))
    | Except.error e => ((none : Option Session), some e)
  if mErr.isSome || sErr.isSome then
    TeamMembersOutcome.failure (multiError [mErr, sErr])
  else if memberships.length == 0 then
    TeamMembersOutcome.noMembersNotice (f.teamName ++ " has no members")
  else
    -- `membershipUserIDs` set, then `profileIDs` from its iteration
    let profileIDs := memberships.foldl (fun acc m => insertAbsent acc m.ownerID) []
    match f.profilesRes profileIDs with
    | Except.error e => TeamMembersOutcome.failure (Err.single e)
    | Except.ok none =>
      TeamMembersOutcome.failure (Err.single (TaskErr.exit "User not found."))
    | Except.ok (some profiles) =>
      match memberRowsGo session profiles with
      | Except.error p => TeamMembersOutcome.panicked p
      | Except.ok rows =>
        TeamMembersOutcome.rendered profileIDs rows memberships.length

/-!
## `orgsMembersListCmd` (org members list)

Three tasks joined by the `getMembersTeamsSession` wait group. The source
has two slips kept faithfully here: a memberships failure stores its exit
error in `tErr` (the teams task's slot), and the session task assigns its
result to the enclosing function's `err` variable and tests `sErr` — which
no statement ever assigns — so a session failure is invisible to the error
gate. After the gate, the relational indices are built; a membership whose
team id is absent from `teamsIdx` causes an explicit `panic(...)`.
-/

/-- Go map `teamsIdx[tid]` built by `for _, team := range teams
{ teamsIdx[*team.ID] = team }`: lookup with later insertions overwriting
earlier ones. -/
def teamsIdxGet : List Team → Nat → Option Team
  | [], _ => none
  | t :: ts, tid =>
    match teamsIdxGet ts tid with
    | some u => some u
    | none => if t.id == tid then some t else none

/-- Append a team id to a user's entry of `userTeamIdx` (a Go
`map[ID][]ID`, modelled as an association list in first-insertion key
order). -/
def addUserTeam : List (Nat × List Nat) → Nat → Nat → List (Nat × List Nat)
  | [], uid, tid => [(uid, [tid])]
  | (k, tids) :: rest, uid, tid =>
    if k == uid then (k, tids ++ [tid]) :: rest
    else (k, tids) :: addUserTeam rest uid tid

/-- Read a user's entry of `userTeamIdx` (a missing key reads as the empty
slice, as for a Go map). -/
def lookupUserTeams (idx : List (Nat × List Nat)) (uid : Nat) : List Nat :=
  match idx.find? (fun p => p.1 == uid) with
  | some p => p.2
  | none => []

/-- The relational indices `orgsMembersListCmd` builds from the membership
loop: the set of user ids with at least one non-machine membership
(`membershipUserIDs`, in first-insertion order) and the user → team-ids
mapping (`userTeamIdx`). -/
structure MemberIndices where
  membershipUserIDs : List Nat
  userTeamIdx : List (Nat × List Nat)
deriving DecidableEq, Repr

/-- The membership loop of `orgsMembersListCmd`: for each membership, look
its team up in `teamsIdx` — `panic` if absent — skip machine teams, and
otherwise record the owner in the user-id set and append the team to the
owner's `userTeamIdx` entry. -/
def buildMemberIndices (teams : List Team) :
    List Membership → MemberIndices → Except GoPanic MemberIndices
  | [], acc => Except.ok acc
  | m :: ms, acc =>
    match teamsIdxGet teams m.teamID with
    | none => Except.error consistencyPanic
    | some team =>
      if isMachineTeam team then buildMemberIndices teams ms acc
      else
        buildMemberIndices teams ms
          { membershipUserIDs := insertAbsent acc.membershipUserIDs m.ownerID,
            userTeamIdx := addUserTeam acc.userTeamIdx m.ownerID m.teamID }

/-- One rendered row of the org members list: the `*` marker (`me`),
display name, username, and the comma-joined sorted team names. -/
structure OrgMemberRow where
  me : Bool
  name : String
  username : String
  teamString : String
deriving DecidableEq, Repr

/-- Render one user row of `orgsMembersListCmd`: sort the user's teams by
precedence, join their names with `", "`, and slice off the trailing
separator (`teamString[:len(teamString)-2]` — a slice-bounds panic when the
string is shorter than the separator, i.e. when the user has no teams in
the index). -/
def orgMemberRowGo (rank : Team → Nat) (teams : List Team)
    (userTeamIdx : List (Nat × List Nat)) (s : Session) (user : Profile) :
    Except GoPanic OrgMemberRow :=
  let me := s.username == user.username
  let userTeams :=
    (lookupUserTeams userTeamIdx user.id).map
      (fun tid => (teamsIdxGet teams tid).getD default)
  let sorted := sortTeamsByPrecedence rank userTeams
  let joined := String.join (sorted.map (fun t => t.name ++ ", "))
  if joined.length < 2 then Except.error sliceBoundsPanic
  else Except.ok { me := me, name := user.name, username := user.username,
                   teamString := joined.dropRight 2 }

/-- The row loop of `orgsMembersListCmd` over the fetched profiles.
`session.Username()` on a nil session is a nil dereference, hit on the
first iteration. -/
def orgMemberRowsGo (rank : Team → Nat) (teams : List Team)
    (userTeamIdx : List (Nat × List Nat)) (session : Option Session) :
    List Profile → Except GoPanic (List OrgMemberRow)
  | [] => Except.ok []
  | u :: us =>
    match session with
    | none => Except.error nilDerefPanic
    | some s => do
      let row ← orgMemberRowGo rank teams userTeamIdx s u
      let rest ← orgMemberRowsGo rank teams userTeamIdx (some s) us
      return row :: rest

/-- The remote-call oracles (and the precedence-rank policy) of one
`orgsMembersListCmd` invocation. -/
structure OrgsMembersFetch where
  orgName : String
  teamsRes : Except TaskErr (List Team)
  membershipsRes : Except TaskErr (List Membership)
  whoRes : Except TaskErr Session
  profilesRes : List Nat → Except TaskErr (Option (List Profile))
  rank : Team → Nat

/-- The state of one `orgsMembersListCmd` invocation at the
`getMembersTeamsSession.Wait()` join point. `errSlot` is the enclosing
function's `err` variable, which the session goroutine assigns; `sErr` is
the slot the error gate tests. -/
structure OrgsMembersJoin where
  teams : List Team
  memberships : List Membership
  session : Option Session
  tErr : Option TaskErr
  mErr : Option TaskErr
  sErr : Option TaskErr
  errSlot : Option TaskErr
deriving DecidableEq, Repr

/-- Run the three tasks of `orgsMembersListCmd` against the oracles and
collect the slots at the join. Task effects are composed in declaration
order (teams, memberships, session) — one admissible schedule; `tErr` is
written by both the teams task and, on a memberships failure, the
memberships task, exactly as in the source. -/
def runOrgsMembersTasks (f : OrgsMembersFetch) : OrgsMembersJoin :=
  -- teams task: `teams, tErr = client.Teams.List(c, org.ID, "",
  -- primitive.AnyTeamType); if tErr != nil { tErr = errs.NewExitError(...) }`
  let (teams, tErr0) :=
    match f.teamsRes with
    | Except.ok ts => (ts, (none : Option TaskErr))
    | Except.error _ =>
      (([] : List Team), some (TaskErr.exit "Could not retrieve list of teams."))
  -- memberships task: `memberships, mErr = client.Memberships.List(c,
  -- org.ID, nil, nil); if mErr != nil { tErr = errs.NewExitError(...) }`
  let (memberships, mErr, tErr) :=
    match f.membershipsRes with
    | Except.ok ms => (ms, (none : Option TaskErr), tErr0)
    | Except.error e =>
      (([] : List Membership), some e,
        some (TaskErr.exit "Could not retrieve list of memberships."))
  -- session task: `session, err = client.Session.Who(c); if sErr != nil
  -- { sErr = errs.NewExitError(...) }` — `sErr` starts as the zero value
  -- and is never assigned, so the branch is dead and the gate's `sErr`
  -- stays nil.
  let sErr0 : Option TaskErr := none
  let (session, errSlot) :=
    match f.whoRes with
    | Except.ok s => (some s, (none : Option TaskErr))
    | Except.error e => ((none : Option Session), some e)
  let sErr :=
    if sErr0.isSome then some (TaskErr.exit "Failed to get current session.")
    else sErr0
  { teams := teams, memberships := memberships, session := session,
    tErr := tErr, mErr := mErr, sErr := sErr, errSlot := errSlot }

/-- The observable outcome of one `orgsMembersListCmd` invocation after the
join: a returned failure, a Go panic (process termination), or the rendered
rows together with the ids the profile batch fetch requested and the
summary count (`len(userIDs)`). -/
inductive CmdOutcome where
  | failure (e : Err)
  | panicked (p : GoPanic)
  | rendered (requestedIDs : List Nat) (rows : List OrgMemberRow)
      (summaryCount : Nat)
deriving DecidableEq, Repr

/-- `orgsMembersListCmd` from the join onward: the error gate
(`MultiError(tErr, mErr, sErr)`), the empty-memberships exit error, the
index build (which can panic), the profile batch fetch, and the row loop. -/
def orgsMembersOutcome (f : OrgsMembersFetch) : CmdOutcome :=
  let j := runOrgsMembersTasks f
  if j.tErr.isSome || j.mErr.isSome || j.sErr.isSome then
    CmdOutcome.failure (multiError [j.tErr, j.mErr, j.sErr])
  else if j.memberships.length == 0 then
    CmdOutcome.failure (Err.single (TaskErr.exit (f.orgName ++ " has no members.")))
  else
    match buildMemberIndices j.teams j.memberships ⟨[], []⟩ with
    | Except.error p => CmdOutcome.panicked p
    | Except.ok idx =>
      let userIDs := idx.membershipUserIDs
      match f.profilesRes userIDs with
      | Except.error _ =>
        CmdOutcome.failure (Err.single (TaskErr.exit "Could not list teams."))
      | Except.ok none =>
        CmdOutcome.failure (Err.single (TaskErr.exit "User not found."))
      | Except.ok (some users) =>
        match orgMemberRowsGo f.rank j.teams idx.userTeamIdx j.session users with
        | Except.error p => CmdOutcome.panicked p
        | Except.ok rows => CmdOutcome.rendered userIDs rows userIDs.length

/-- Whether a command outcome is a returned failure value (as opposed to a
panic — process termination — or a successful render). -/
def isFailureCmdOutcome : CmdOutcome → Bool
  | CmdOutcome.failure _ => true
  | _ => false

/-!
## Concrete invocations used by the claim instances
-/

/-- Scenario team A: a user team named `alpha`, id 1. -/
def teamAlpha : Team := ⟨1, "alpha", TeamType.user⟩

/-- Scenario team B: a machine team named `beta`, id 2 (machine-owned by
type). -/
def teamBeta : Team := ⟨2, "beta", TeamType.machine⟩

/-- Membership U1 → A: user 10 in team 1. -/
def membershipU1A : Membership := ⟨100, 10, 1⟩

/-- Membership U2 → B: user 20 in team 2 (the machine team). -/
def membershipU2B : Membership := ⟨101, 20, 2⟩

/-- The profile of user U1 (id 10). -/
def profileU1 : Profile := ⟨10, "User One", "usrone"⟩

/-- The org-members scenario of the end-to-end claim: teams `A` (user) and
`B` (machine), memberships `{U1→A, U2→B}`, a session for U1, a profile
oracle answering with U1's profile, and a constant precedence rank. -/
def scenarioFetch : OrgsMembersFetch :=
  { orgName := "acme", teamsRes := Except.ok [teamAlpha, teamBeta],
    membershipsRes := Except.ok [membershipU1A, membershipU2B],
    whoRes := Except.ok ⟨10, "usrone"⟩,
    profilesRes := fun _ => Except.ok (some [profileU1]),
    rank := fun _ => 0 }

/-- The same invocation with only the session fetch failing. -/
def sessionFailFetch : OrgsMembersFetch :=
  { scenarioFetch with whoRes := Except.error (TaskErr.raw "who failed") }

/-- The same invocation with a membership referencing team id 99, absent
from the fetched team list. -/
def danglingMembershipFetch : OrgsMembersFetch :=
  { scenarioFetch with membershipsRes := Except.ok [⟨100, 10, 99⟩] }

/-- A `teamsListCmd` invocation whose teams fetch fails. -/
def teamsFailFetch : TeamsListFetch :=
  { whoRes := Except.ok ⟨10, "usrone"⟩,
    teamsRes := Except.error (TaskErr.raw "teams boom"),
    membershipsRes := fun _ => Except.ok [] }

/-- The join state `teamsFailFetch` produces (checked by `rfl` where it is
used). -/
def teamsFailJoin : TeamsListJoin :=
  { session := some ⟨10, "usrone"⟩, sErr := none, teams := [],
    tErr := some (TaskErr.raw "teams boom"), memberOf := [],
    membershipCallRan := true, displaySignals := 2 }

/-- A `teamsListCmd` invocation whose session fetch fails (the dependent
memberships task's prerequisite). -/
def depFailFetch : TeamsListFetch :=
  { whoRes := Except.error (TaskErr.raw "session down"),
    teamsRes := Except.ok [teamAlpha],
    membershipsRes := fun _ => Except.ok [membershipU1A] }

/-- An `orgsList` invocation whose orgs fetch fails. -/
def orgsFailFetch : OrgsListFetch :=
  { orgsRes := Except.error (TaskErr.raw "orgs fetch failed"),
    whoRes := Except.ok ⟨1, "user"⟩ }

/-- A `teamMembersListCmd` invocation with zero memberships. -/
def emptyTeamMembersFetch : TeamMembersFetch :=
  { teamName := "devs", membershipsRes := Except.ok [],
    whoRes := Except.ok ⟨10, "usrone"⟩,
    profilesRes := fun _ => Except.ok (some []) }

/-- An `orgsMembersListCmd` invocation with zero memberships. -/
def emptyOrgsMembersFetch : OrgsMembersFetch :=
  { scenarioFetch with membershipsRes := Except.ok [] }

/-- The seven-team input exhibiting the instability of `sort.Sort`: teams
`s0 … s5` share rank 1 and `s6` has rank 0. -/
def sortTeam (i : Nat) : Team := ⟨i, "t", TeamType.user⟩

/-- Rank: team id 6 ranks 0, every other team ranks 1. -/
def rankSeven (t : Team) : Nat := if t.id == 6 then 0 else 1

/-- The seven teams in input order. -/
def sevenTeams : List Team := (List.range 7).map sortTeam

/-- The three teams of the stability example: `A` and `B` at rank 1, `C`
at rank 0. -/
def teamA3 : Team := ⟨1, "A", TeamType.user⟩

/-- Team `B` of the stability example. -/
def teamB3 : Team := ⟨2, "B", TeamType.user⟩

/-- Team `C` of the stability example. -/
def teamC3 : Team := ⟨3, "C", TeamType.user⟩

/-- Rank for the stability example: `C` ranks 0, `A` and `B` rank 1. -/
def rankABC (t : Team) : Nat := if t.id == 3 then 0 else 1

/-!
## Helper lemmas
-/

/-- With a non-nil session the member-row loop never panics and maps each
profile to its row. -/
theorem memberRowsGo_some (s : Session) (profiles : List Profile) :
    memberRowsGo (some s) profiles =
      Except.ok (profiles.map (fun p =>
        { me := s.username == p.username, name := p.name,
          username := p.username })) := by
  induction profiles with
  | nil => rfl
  | cons p ps ih => simp [memberRowsGo, ih]

/-- Filtering a mapped list has the same length as filtering by the
composed predicate. -/
theorem length_filter_map_eq {α β : Type} (f : α → β) (p : β → Bool)
    (l : List α) :
    ((l.map f).filter p).length = (l.filter (fun a => p (f a))).length := by
  induction l with
  | nil => rfl
  | cons a as ih =>
    by_cases h : p (f a) = true <;> simp [List.filter_cons, h, ih]

/-- In a profile list with pairwise-distinct usernames, at most one profile
matches a fixed username. -/
theorem countP_username_le_one (u : String) :
    ∀ l : List Profile, (l.map Profile.username).Nodup →
      l.countP (fun p => u == p.username) ≤ 1 := by
  intro l
  induction l with
  | nil => intro _; simp
  | cons p ps ih =>
    intro h
    rw [List.map_cons, List.nodup_cons] at h
    rw [List.countP_cons]
    by_cases hu : (u == p.username) = true
    · have hzero : ps.countP (fun q => u == q.username) = 0 := by
        rw [List.countP_eq_zero]
        intro q hq hmatch
        exact h.1 (by
          rw [← (beq_iff_eq.mp hu), (beq_iff_eq.mp hmatch)]
          exact List.mem_map_of_mem Profile.username hq)
      simp [hu, hzero]
    · simp only [hu]
      simpa using ih h.2

/-- A successful org-member row loop maps each fetched profile to a row
whose `me` flag is the username identity match and whose username is the
profile's. -/
theorem orgMemberRowGo_fields (rank : Team → Nat) (teams : List Team)
    (idx : List (Nat × List Nat)) (s : Session) (u : Profile)
    (row : OrgMemberRow)
    (h : orgMemberRowGo rank teams idx s u = Except.ok row) :
    row.me = (s.username == u.username) ∧ row.username = u.username := by
  unfold orgMemberRowGo at h
  dsimp only at h
  split at h
  · exact Except.noConfusion h
  · cases h
    exact ⟨rfl, rfl⟩

/-- Shape of a successful org-member row loop: the `(me, username)` pairs
of the rows are exactly those computed from the profiles in order. -/
theorem orgMemberRowsGo_shape (rank : Team → Nat) (teams : List Team)
    (idx : List (Nat × List Nat)) (s : Session) :
    ∀ (users : List Profile) (rows : List OrgMemberRow),
      orgMemberRowsGo rank teams idx (some s) users = Except.ok rows →
      rows.map (fun r => (r.me, r.username)) =
        users.map (fun u => (s.username == u.username, u.username)) := by
  intro users
  induction users with
  | nil =>
    intro rows h
    cases h
    rfl
  | cons u us ih =>
    intro rows h
    simp only [orgMemberRowsGo] at h
    cases hrow : orgMemberRowGo rank teams idx s u with
    | error p => rw [hrow] at h; exact Except.noConfusion h
    | ok row =>
      rw [hrow] at h
      cases hrest : orgMemberRowsGo rank teams idx (some s) us with
      | error p =>
        rw [hrest] at h
        exact Except.noConfusion h
      | ok rest =>
        rw [hrest] at h
        simp only [Except.bind, bind, pure, Except.pure] at h
        cases h
        obtain ⟨hme, hun⟩ := orgMemberRowGo_fields rank teams idx s u row hrow
        simp [hme, hun, ih rest hrest]

/-!
## Claim instances
-/

/-- Claim C1, counterexample: `orgsList` does not combine the individual
task errors — with a failing orgs fetch it returns the single fresh exit
error `"Error fetching orgs list"`, which does not contain the task's
error. -/
theorem claim1_counterexample :
    orgsList orgsFailFetch =
      Except.error (Err.single (TaskErr.exit "Error fetching orgs list")) ∧
    errContains (Err.single (TaskErr.exit "Error fetching orgs list"))
      (TaskErr.raw "orgs fetch failed") = false :=
  ⟨rfl, rfl⟩

/-- Claim C1 (amended): in `teamsListCmd` a failing invocation returns one
combined failure value that contains every non-nil error slot with nil
slots omitted, ordered by error slot (the session/memberships slot, then
the teams slot, then the fixed exit error) rather than strictly by task
declaration order; `orgsList` instead returns a single generic failure that
discards the individual task errors. -/
theorem claim1_amended :
    (∀ (f : TeamsListFetch) (j : TeamsListJoin) (e : TaskErr),
        runTeamsListTasks f = Except.ok j →
        (j.sErr = some e ∨ j.tErr = some e) →
        teamsListOutcome f =
          TeamsListOutcome.failure
            (multiError
              [j.sErr, j.tErr, some (TaskErr.exit "Error fetching teams list")]) ∧
        errContains
          (multiError
            [j.sErr, j.tErr, some (TaskErr.exit "Error fetching teams list")])
          e = true) ∧
    (∀ (g : OrgsListFetch) (e : TaskErr),
        ((orgsListSlots g).1 = some e ∨ (orgsListSlots g).2 = some e) →
        orgsList g =
          Except.error (Err.single (TaskErr.exit "Error fetching orgs list"))) := by
  constructor
  · intro f j e hj hor
    have hcond : (j.sErr.isSome || j.tErr.isSome) = true := by
      rcases hor with h | h <;> simp [h]
    constructor
    · simp [teamsListOutcome, hj, hcond]
    · rcases hor with h | h
      · simp [errContains, multiError, h]
      · cases hs : j.sErr <;> simp [errContains, multiError, h, hs]
  · intro g e hor
    have hcond : ((orgsListSlots g).1.isSome || (orgsListSlots g).2.isSome) = true := by
      rcases hor with h | h <;> simp [h]
    simp [orgsList, hcond]

/-- Claim C1 witness: the amended statement applied to a concrete failing
teams fetch and a concrete failing orgs fetch. -/
theorem claim1_witness :
    (teamsListOutcome teamsFailFetch =
       TeamsListOutcome.failure
         (multiError
           [teamsFailJoin.sErr, teamsFailJoin.tErr,
            some (TaskErr.exit "Error fetching teams list")]) ∧
     errContains
       (multiError
         [teamsFailJoin.sErr, teamsFailJoin.tErr,
          some (TaskErr.exit "Error fetching teams list")])
       (TaskErr.raw "teams boom") = true) ∧
    orgsList orgsFailFetch =
      Except.error (Err.single (TaskErr.exit "Error fetching orgs list")) :=
  ⟨claim1_amended.1 teamsFailFetch teamsFailJoin (TaskErr.raw "teams boom") rfl
     (Or.inr rfl),
   claim1_amended.2 orgsFailFetch (TaskErr.raw "orgs fetch failed") (Or.inl rfl)⟩

/-- Claim C2 (code bug): with only the whoAmI/session fetch failing,
`orgsMembersListCmd` does not return a failure — the session goroutine
stores its error in the enclosing `err` variable and tests the never-
assigned `sErr`, so the error gate sees all-nil slots and the command
proceeds to render, dereferencing the nil session. -/
theorem claim2_code_bug_eval :
    (runOrgsMembersTasks sessionFailFetch).sErr = none ∧
    (runOrgsMembersTasks sessionFailFetch).errSlot =
      some (TaskErr.raw "who failed") ∧
    orgsMembersOutcome sessionFailFetch = CmdOutcome.panicked nilDerefPanic ∧
    isFailureCmdOutcome (orgsMembersOutcome sessionFailFetch) = false :=
  ⟨rfl, rfl, rfl, rfl⟩

/-- Claim C3, counterexample: a membership referencing a team id absent
from the fetched team list makes `orgsMembersListCmd` panic — terminating
the process — rather than returning a Consistency error value to the
caller. -/
theorem claim3_counterexample :
    orgsMembersOutcome danglingMembershipFetch =
      CmdOutcome.panicked consistencyPanic ∧
    isFailureCmdOutcome (orgsMembersOutcome danglingMembershipFetch) = false :=
  ⟨rfl, rfl⟩

/-- Claim C3 (amended): when building the relational indices, a membership
referencing a team id absent from the fetched team list makes the operation
panic with the fixed message `"Attempted to access membership with no
associated team."`, terminating the process, instead of returning an error
value. -/
theorem claim3_amended :
    ∀ (memberships : List Membership) (teams : List Team)
      (acc : MemberIndices),
      (∃ m ∈ memberships, teamsIdxGet teams m.teamID = none) →
      buildMemberIndices teams memberships acc =
        Except.error consistencyPanic := by
  intro memberships
  induction memberships with
  | nil =>
    intro teams acc h
    simp at h
  | cons m ms ih =>
    intro teams acc h
    obtain ⟨m', hm', hnone⟩ := h
    rcases List.mem_cons.mp hm' with rfl | hmem
    · simp [buildMemberIndices, hnone]
    · cases hg : teamsIdxGet teams m.teamID with
      | none => simp [buildMemberIndices, hg]
      | some team =>
        simp only [buildMemberIndices, hg]
        split
        · exact ih teams acc ⟨m', hmem, hnone⟩
        · exact ih teams _ ⟨m', hmem, hnone⟩

/-- Claim C3 witness: the amended statement applied to a membership
referencing the absent team id 99. -/
theorem claim3_witness :
    buildMemberIndices [teamAlpha] [⟨100, 10, 99⟩] ⟨[], []⟩ =
      Except.error consistencyPanic :=
  claim3_amended [⟨100, 10, 99⟩] [teamAlpha] ⟨[], []⟩
    ⟨⟨100, 10, 99⟩, List.mem_singleton.mpr rfl, rfl⟩

/-- Claim C4: in `teamsListCmd`, when the prerequisite session task failed,
the dependent memberships task performs no remote call, writes nothing to
the shared `memberOf` result, and still signals `display.Done()` exactly
once, so at the join both `display` signals (out of `display.Add(2)`) have
been made. -/
theorem claim4_dependent_task (f : TeamsListFetch) (e : TaskErr)
    (h : f.whoRes = Except.error e) :
    teamsListMembershipTask (some e) none f.membershipsRes =
      Except.ok
        { membershipsOut := [], sErrOut := some e, remoteCallRan := false,
          doneSignals := 1 } ∧
    ∃ j, runTeamsListTasks f = Except.ok j ∧
      j.membershipCallRan = false ∧ j.memberOf = [] ∧ j.sErr = some e ∧
      j.displaySignals = 2 := by
  constructor
  · rfl
  · unfold runTeamsListTasks
    rw [h]
    cases hf : f.teamsRes with
    | ok ts => exact ⟨_, rfl, rfl, rfl, rfl, rfl⟩
    | error e2 => exact ⟨_, rfl, rfl, rfl, rfl, rfl⟩

/-- Claim C4 witness: the theorem applied to a concrete invocation whose
session fetch fails. -/
theorem claim4_witness :
    teamsListMembershipTask (some (TaskErr.raw "session down")) none
        depFailFetch.membershipsRes =
      Except.ok
        { membershipsOut := [], sErrOut := some (TaskErr.raw "session down"),
          remoteCallRan := false, doneSignals := 1 } ∧
    ∃ j, runTeamsListTasks depFailFetch = Except.ok j ∧
      j.membershipCallRan = false ∧ j.memberOf = [] ∧
      j.sErr = some (TaskErr.raw "session down") ∧ j.displaySignals = 2 :=
  claim4_dependent_task depFailFetch (TaskErr.raw "session down") rfl

/-- Claim C5, counterexample: the per-user team sort is not stable. On
seven teams `[s0(1), s1(1), s2(1), s3(1), s4(1), s5(1), s6(0)]` the gap-6
Shell-sort pass of `sort.Sort` swaps `s6` with `s0`, carrying `s0` past the
equal-rank teams `s1 … s5`: `s0` precedes `s5` in the input but follows it
in the output although their ranks are equal. -/
theorem claim5_counterexample :
    sortTeamsByPrecedence rankSeven sevenTeams =
      [sortTeam 6, sortTeam 1, sortTeam 2, sortTeam 3, sortTeam 4, sortTeam 5,
       sortTeam 0] ∧
    rankSeven (sortTeam 0) = rankSeven (sortTeam 5) ∧
    sevenTeams.findIdx (fun t => t.id == 0) <
      sevenTeams.findIdx (fun t => t.id == 5) ∧
    (sortTeamsByPrecedence rankSeven sevenTeams).findIdx (fun t => t.id == 5) <
      (sortTeamsByPrecedence rankSeven sevenTeams).findIdx (fun t => t.id == 0) := by
  refine ⟨rfl, rfl, by decide, by decide⟩

/-- Claim C5 (amended): on the three-team input `[A(rank 1), B(rank 1),
C(rank 0)]` the per-user team sort yields `[C, A, B]` (the tie between `A`
and `B` happens to be preserved: ranges of at most six elements take the
pure insertion-sort path), and re-running the sort on the produced order
leaves it unchanged; the sort is deterministic but not stable for all
inputs. -/
theorem claim5_amended :
    sortTeamsByPrecedence rankABC [teamA3, teamB3, teamC3] =
      [teamC3, teamA3, teamB3] ∧
    sortTeamsByPrecedence rankABC [teamC3, teamA3, teamB3] =
      [teamC3, teamA3, teamB3] :=
  ⟨rfl, rfl⟩

/-- Claim C6: `isMachineTeam(team)` is true iff the team's type is Machine,
or its type is System and its name is the reserved machine-team name; it is
false for every other type/name combination (the per-type equations cover
the 3×2 combinations). -/
theorem claim6_isMachineTeam (t : Team) (id : Nat) (nm : String) :
    (isMachineTeam t = true ↔
      t.teamType = TeamType.machine ∨
        (t.teamType = TeamType.system ∧ t.name = machineTeamName)) ∧
    isMachineTeam ⟨id, nm, TeamType.machine⟩ = true ∧
    isMachineTeam ⟨id, nm, TeamType.user⟩ = false ∧
    isMachineTeam ⟨id, nm, TeamType.system⟩ = (nm == machineTeamName) := by
  obtain ⟨i, n, ty⟩ := t
  refine ⟨?_, by simp [isMachineTeam], by simp [isMachineTeam],
    by simp [isMachineTeam]⟩
  cases ty <;> simp [isMachineTeam]

/-- Claim C7, counterexample: the teams-list view can annotate more than
one row per invocation — with two non-machine teams both in `memberOf`,
both rendered rows carry the `*` marker. -/
theorem claim7_counterexample :
    ((teamsListRows [⟨1, "a", TeamType.user⟩, ⟨2, "b", TeamType.user⟩]
        [1, 2]).filter (fun r => r.isMember)).length = 2 :=
  rfl

/-- Claim C7 (amended): in the member-listing views (team members, org
members) a row is annotated as the current actor by username identity match
against the session, and — provided the fetched profiles carry pairwise
distinct usernames — at most one row per invocation is annotated; in the
teams-list view the `*` marker instead annotates every non-machine team
whose id is in `memberOf`, which can be several rows. -/
theorem claim7_amended :
    (∀ (s : Session) (profiles : List Profile) (rows : List MemberRow),
        memberRowsGo (some s) profiles = Except.ok rows →
        (profiles.map Profile.username).Nodup →
        ((rows.filter (fun r => r.me)).length ≤ 1 ∧
          ∀ r ∈ rows, r.me = (s.username == r.username))) ∧
    (∀ (rank : Team → Nat) (teams : List Team) (idx : List (Nat × List Nat))
        (s : Session) (users : List Profile) (rows : List OrgMemberRow),
        orgMemberRowsGo rank teams idx (some s) users = Except.ok rows →
        (users.map Profile.username).Nodup →
        (rows.filter (fun r => r.me)).length ≤ 1) ∧
    (∀ (teams : List Team) (memberOf : List Nat),
        ((teamsListRows teams memberOf).filter (fun r => r.isMember)).length =
          ((machineTeamFilter teams).filter
            (fun t => memberOf.contains t.id)).length) := by
  refine ⟨?_, ?_, ?_⟩
  · intro s profiles rows h hnodup
    rw [memberRowsGo_some] at h
    cases h
    constructor
    · rw [length_filter_map_eq]
      calc (profiles.filter
              (fun p => (MemberRow.me
                { me := s.username == p.username, name := p.name,
                  username := p.username }))).length
          = profiles.countP (fun p => s.username == p.username) := by
            rw [← List.countP_eq_length_filter]
        _ ≤ 1 := countP_username_le_one s.username profiles hnodup
    · intro r hr
      rw [List.mem_map] at hr
      obtain ⟨p, _, rfl⟩ := hr
      rfl
  · intro rank teams idx s users rows h hnodup
    have hshape := orgMemberRowsGo_shape rank teams idx s users rows h
    have h1 : (rows.filter (fun r => r.me)).length =
        ((rows.map (fun r => (r.me, r.username))).filter
          (fun x => x.1)).length := by
      rw [length_filter_map_eq]
    rw [h1, hshape, length_filter_map_eq]
    calc (users.filter (fun u => s.username == u.username)).length
        = users.countP (fun u => s.username == u.username) := by
          rw [← List.countP_eq_length_filter]
      _ ≤ 1 := countP_username_le_one s.username users hnodup
  · intro teams memberOf
    rw [teamsListRows, length_filter_map_eq]

/-- Claim C7 witness: the amended statement applied to a concrete session,
one concrete profile for each member view, and a concrete teams list. -/
theorem claim7_witness :
    (([{ me := true, name := "User One",
         username := "usrone" }].filter (fun r : MemberRow => r.me)).length ≤ 1) ∧
    (([{ me := true, name := "User One", username := "usrone",
         teamString := "alpha" }].filter (fun r : OrgMemberRow => r.me)).length ≤ 1) ∧
    ((teamsListRows [teamAlpha] [1]).filter (fun r => r.isMember)).length =
      ((machineTeamFilter [teamAlpha]).filter (fun t => [1].contains t.id)).length :=
  ⟨(claim7_amended.1 ⟨10, "usrone"⟩ [profileU1]
      [{ me := true, name := "User One", username := "usrone" }] rfl
      (by simp)).1,
   claim7_amended.2.1 (fun _ => 0) [teamAlpha] [(10, [1])] ⟨10, "usrone"⟩
     [profileU1]
     [{ me := true, name := "User One", username := "usrone",
        teamString := "alpha" }] rfl (by simp),
   claim7_amended.2.2 [teamAlpha] [1]⟩

/-- Claim C8: in the end-to-end org-members scenario with memberships
`{U1→A, U2→B}` where `B` is machine-owned and `A` is not, the profile batch
fetch requests exactly U1's id and the rendered table has exactly one data
row. -/
theorem claim8_scenario :
    orgsMembersOutcome scenarioFetch =
      CmdOutcome.rendered [10]
        [{ me := true, name := "User One", username := "usrone",
           teamString := "alpha" }] 1 :=
  rfl

/-- Claim C9: the machine-team exclusion filter is idempotent — filtering
an already-filtered team list yields the same list. -/
theorem claim9_filter_idempotent (teams : List Team) :
    machineTeamFilter (machineTeamFilter teams) = machineTeamFilter teams := by
  simp [machineTeamFilter, List.filter_filter]

/-- Claim C10: the two member-listing views treat zero memberships
oppositely — `teamMembersListCmd` succeeds with the `"has no members"`
notice (no profile fetch: the notice outcome is produced before the profile
oracle is consulted), while `orgsMembersListCmd` returns an exit error. -/
theorem claim10_empty_memberships (ft : TeamMembersFetch) (s : Session)
    (hm : ft.membershipsRes = Except.ok [])
    (hw : ft.whoRes = Except.ok s)
    (fo : OrgsMembersFetch) (ts : List Team)
    (ht : fo.teamsRes = Except.ok ts)
    (hmo : fo.membershipsRes = Except.ok []) :
    teamMembersOutcome ft =
      TeamMembersOutcome.noMembersNotice (ft.teamName ++ " has no members") ∧
    orgsMembersOutcome fo =
      CmdOutcome.failure
        (Err.single (TaskErr.exit (fo.orgName ++ " has no members."))) := by
  constructor
  · unfold teamMembersOutcome
    rw [hm, hw]
    rfl
  · unfold orgsMembersOutcome runOrgsMembersTasks
    rw [ht, hmo]
    cases fo.whoRes <;> rfl

/-- Claim C10 witness: the theorem applied to concrete empty-membership
invocations of both views. -/
theorem claim10_witness :
    teamMembersOutcome emptyTeamMembersFetch =
      TeamMembersOutcome.noMembersNotice "devs has no members" ∧
    orgsMembersOutcome emptyOrgsMembersFetch =
      CmdOutcome.failure (Err.single (TaskErr.exit "acme has no members.")) :=
  claim10_empty_memberships emptyTeamMembersFetch ⟨10, "usrone"⟩ rfl rfl
    emptyOrgsMembersFetch [teamAlpha, teamBeta] rfl rfl

end Torus
